import Mathlib

/-!
Shallow embedding of the SERN emergency-resource coordination core
(`app.py`, `models.py`) and proofs about its matching, scoring and
lifecycle logic.

Modelling conventions:
* Python `float` arithmetic on reliability scores is modelled with `ℚ`.
* Dates are day numbers (`Int`); timestamps are minutes (`Int`), so the
  Python `(responded_at - notified_at).total_seconds() / 60` becomes a
  plain difference of minute-valued timestamps.
* Python `None` / falsy-empty fields are `Option` values, `none` standing
  for an unset field.
* The SQLAlchemy session is a record of lists (`AppState`); route handlers
  become pure state-transition functions, `Option.none` standing for a
  request that aborts (404 / attribute error on a missing row).
-/

/-- Contributor roles (`User.role` strings in `models.py`). -/
inductive Role where
  | hospital
  | blood_bank
  | ngo
  | ambulance
  | volunteer
  | donor
deriving DecidableEq, Repr

/-- Embeds `models.User`: the fields of the user row that the core logic reads. -/
structure User where
  id : Nat
  role : Role
  blood_group : Option String
  last_donation_date : Option Int
  is_available : Bool
  is_verified : Bool
  iri_score : ℚ
  ecc_credits : Int
  total_requests_received : Nat
  total_requests_fulfilled : Nat
  total_requests_declined : Nat
  response_time_avg : ℚ
  city : String
  district : String
deriving DecidableEq

/-- Embeds `models.EmergencyRequest`: the fields the core logic reads/writes. -/
structure EmergencyRequest where
  id : Nat
  requester_id : Nat
  resource_type : String
  blood_group : Option String
  units_needed : Int
  urgency : String
  city : String
  district : String
  status : String
  units_fulfilled : Int
  auto_expanded : Bool
  fulfilled_by_id : Option Nat
  fulfilled_at : Option Int
  expires_at : Option Int
deriving DecidableEq

/-- Embeds `models.RequestResponse`. -/
structure RequestResponse where
  request_id : Nat
  responder_id : Nat
  status : String
  units_offered : Int
  units_provided : Int
  notified_at : Option Int
  responded_at : Option Int
  completed_at : Option Int
  requester_rating : Option Int
deriving DecidableEq

/-- Embeds `models.ContributionLog`. -/
structure ContributionLog where
  user_id : Nat
  request_id : Nat
  contribution_type : String
  ecc_earned : Int
  description : String
deriving DecidableEq

/-- The persistent store the Flask routes mutate through the session. -/
structure AppState where
  users : List User
  requests : List EmergencyRequest
  responses : List RequestResponse
  logs : List ContributionLog
deriving DecidableEq

/-- Embeds `User.can_donate_blood`: eligible when never donated, or at least 56
days have elapsed since the last donation (`today` is the current date as
a day number, matching `datetime.now().date()`). -/
def User.can_donate_blood (today : Int) (u : User) : Bool :=
  match u.last_donation_date with
  | none => true
  | some d => 56 ≤ today - d

/-- Embeds `User.is_organization`: role in `['hospital','blood_bank','ngo','ambulance']`. -/
def User.is_organization (u : User) : Bool :=
  [Role.hospital, Role.blood_bank, Role.ngo, Role.ambulance].contains u.role

/-- Embeds `User.update_iri`: mutate reliability counters after a response.
Faithful translation of `models.py` lines 79-100. -/
def User.update_iri (u : User) (fulfilled : Bool) (response_time_minutes : ℚ) : User :=
  let u := { u with total_requests_received := u.total_requests_received + 1 }
  let u :=
    if fulfilled then
      let fulfillment_bonus : ℚ := min 5 (100 - u.iri_score)
      let time_bonus : ℚ := max 0 (2 - response_time_minutes / 30)
      { u with
        total_requests_fulfilled := u.total_requests_fulfilled + 1
        iri_score := min 100 (u.iri_score + fulfillment_bonus + time_bonus) }
    else
      { u with
        total_requests_declined := u.total_requests_declined + 1
        iri_score := max 0 (u.iri_score - 3) }
  if 0 < response_time_minutes then
    let total_responses : ℚ := (u.total_requests_fulfilled + u.total_requests_declined : ℕ)
    { u with response_time_avg :=
        (u.response_time_avg * (total_responses - 1) + response_time_minutes) / total_responses }
  else u

/-- Embeds `BLOOD_COMPATIBILITY` of `app.py`: donor group ↦ recipient groups. -/
def BLOOD_COMPATIBILITY : List (String × List String) :=
  [("O-", ["O-", "O+", "A-", "A+", "B-", "B+", "AB-", "AB+"]),
   ("O+", ["O+", "A+", "B+", "AB+"]),
   ("A-", ["A-", "A+", "AB-", "AB+"]),
   ("A+", ["A+", "AB+"]),
   ("B-", ["B-", "B+", "AB-", "AB+"]),
   ("B+", ["B+", "AB+"]),
   ("AB-", ["AB-", "AB+"]),
   ("AB+", ["AB+"])]

/-- Embeds `RARE_BLOOD_GROUPS` of `app.py`. -/
def RARE_BLOOD_GROUPS : List String := ["AB-", "B-", "A-", "O-"]

/-- Embeds `BLOOD_COMPATIBILITY.get(g, [])`: dictionary lookup with `[]` default;
a `none` key (an unset blood group) finds nothing, like Python `None`. -/
def compat_get (g : Option String) : List String :=
  match g with
  | none => []
  | some key => (((BLOOD_COMPATIBILITY.find? (fun p => p.1 == key)).map (fun p => p.2)).getD [])

/-- Python truthiness of `emergency_request.blood_group in RARE_BLOOD_GROUPS`
(an unset group is not rare). -/
def is_rare (g : Option String) : Bool :=
  match g with
  | none => false
  | some key => RARE_BLOOD_GROUPS.contains key

/-- Lexicographic order on the Python sort-key tuple
`(eligible, verified, reliability)`. -/
def tuple_le (a b : Nat × Nat × ℚ) : Prop :=
  a.1 < b.1 ∨ (a.1 = b.1 ∧ (a.2.1 < b.2.1 ∨ (a.2.1 = b.2.1 ∧ a.2.2 ≤ b.2.2)))

instance (a b : Nat × Nat × ℚ) : Decidable (tuple_le a b) := by
  unfold tuple_le; infer_instance

/-- The `sort_key` closure inside `find_matching_contributors`
(`app.py` lines 391-401). -/
def sort_key (today : Int) (user : User) : Nat × Nat × ℚ :=
  let eligible : Nat := if !(user.role == Role.donor) || user.can_donate_blood today then 1 else 0
  let verified : Nat := if user.is_verified then 1 else 0
  let reliability : ℚ :=
    if !user.is_organization then user.iri_score else min 100 (user.ecc_credits : ℚ)
  (eligible, verified, reliability)

/-- Donor groups whose compatibility set contains the requested group
(the `compatible_donors` accumulation loop, `app.py` lines 361-364). -/
def compatible_donors (g : String) : List String :=
  ((BLOOD_COMPATIBILITY.filter (fun p => p.2.contains g)).map (fun p => p.1))

/-- The role / blood-group filters that `find_matching_contributors` adds to
the base query depending on the resource type (`app.py` lines 356-374). -/
def resource_filter (er : EmergencyRequest) (u : User) : Bool :=
  if er.resource_type == "blood" then
    u.role == Role.donor &&
      (match er.blood_group with
       | none => true
       | some g =>
         match u.blood_group with
         | none => false
         | some bg => (compatible_donors g).contains bg)
  else if er.resource_type == "ambulance" then u.role == Role.ambulance
  else if er.resource_type == "volunteer" then u.role == Role.volunteer
  else if er.resource_type == "plasma" || er.resource_type == "oxygen" then
    [Role.blood_bank, Role.hospital, Role.ngo].contains u.role
  else true

/-- The base query: available, not the requester, resource filters
(`app.py` lines 351-374). -/
def base_query (er : EmergencyRequest) (u : User) : Bool :=
  u.is_available && !(u.id == er.requester_id) && resource_filter er u

/-- Same-city candidates (`app.py` line 377). -/
def city_candidates (pool : List User) (er : EmergencyRequest) : List User :=
  pool.filter (fun u => base_query er u && (u.city == er.city))

/-- District-level candidates outside the request's city (`app.py` lines 383-386). -/
def district_candidates (pool : List User) (er : EmergencyRequest) : List User :=
  pool.filter (fun u => base_query er u && (u.district == er.district) && !(u.city == er.city))

/-- The nested expansion conditions of `app.py` lines 380-381. -/
def expansion_triggered (pool : List User) (er : EmergencyRequest) : Bool :=
  ((city_candidates pool er).length < 3 || er.urgency == "critical") &&
    (is_rare er.blood_group || er.urgency == "critical")

/-- The combined candidate list fed to the ranking sort: city candidates,
extended by district candidates when expansion triggers (`app.py` lines 377-388). -/
def combined_candidates (pool : List User) (er : EmergencyRequest) : List User :=
  if expansion_triggered pool er then
    city_candidates pool er ++ district_candidates pool er
  else city_candidates pool er

/-- Embeds `find_matching_contributors` (`app.py` lines 349-407): returns the
truncated ranked list together with the request, whose `auto_expanded`
flag is set when the district expansion triggered (the in-place mutation
at line 388).  `contributors.sort(key=sort_key, reverse=True)` is a stable
descending sort, embedded as a stable insertion sort with the relation
"left key is lexicographically at least right key". -/
def find_matching_contributors (today : Int) (pool : List User) (er : EmergencyRequest) :
    List User × EmergencyRequest :=
  let contributors := combined_candidates pool er
  let er' := if expansion_triggered pool er then { er with auto_expanded := true } else er
  let ranked :=
    List.insertionSort (fun a b => tuple_le (sort_key today b) (sort_key today a)) contributors
  let max_notifications := if er.urgency == "critical" then 10 else 5
  (ranked.take max_notifications, er')

/-- Embeds `calculate_ecc` (`app.py` lines 469-486).  All operands are integers,
so the final `int(...)` truncation is the identity.  `response.requester_rating
or 3` is Python truthiness: `None` and `0` both fall back to `3`. -/
def calculate_ecc (er : EmergencyRequest) (response : RequestResponse) : Int :=
  let base_ecc : Int := 10
  let urgency_multiplier : List (String × Int) := [("critical", 3), ("urgent", 2), ("normal", 1)]
  let mult : Int :=
    (((urgency_multiplier.find? (fun p => p.1 == er.urgency)).map (fun p => p.2)).getD 1)
  let rare_bonus : Int := if is_rare er.blood_group then 5 else 0
  let rating_or_3 : Int :=
    match response.requester_rating with
    | none => 3
    | some r => if r == 0 then 3 else r
  let rating_bonus : Int := rating_or_3 - 3
  base_ecc * mult + rare_bonus + rating_bonus

/-- Embeds `is_user_eligible_for_request` (`app.py` lines 425-441). -/
def is_user_eligible_for_request (today : Int) (user : User) (er : EmergencyRequest) : Bool :=
  if !user.is_available then false
  else if er.resource_type == "blood" then
    if !(user.role == Role.donor) then false
    else if !(user.can_donate_blood today) then false
    else
      match er.blood_group with
      | none => true
      | some g => (compat_get user.blood_group).contains g
  else true

/-- Mutate the user row with the given id in place (ORM object mutation). -/
def update_user (users : List User) (uid : Nat) (f : User → User) : List User :=
  users.map (fun u => if u.id == uid then f u else u)

/-- Replace the request row with the given id in place. -/
def update_request (requests : List EmergencyRequest) (rid : Nat) (er : EmergencyRequest) :
    List EmergencyRequest :=
  requests.map (fun r => if r.id == rid then er else r)

/-- Replace the response row for the `(request, responder)` pair in place
(at most one such row exists per the data model). -/
def update_response (responses : List RequestResponse) (rid uid : Nat)
    (resp : RequestResponse) : List RequestResponse :=
  responses.map (fun p =>
    if p.request_id == rid && p.responder_id == uid then resp else p)

/-- The request-status update at the end of `complete_request`
(`app.py` lines 332-339): add the provided units and move to
`fulfilled` (stamping time and responder) or `partially_fulfilled`. -/
def apply_completion (er : EmergencyRequest) (units_provided : Int) (responder_id : Nat)
    (now : Int) : EmergencyRequest :=
  let uf := er.units_fulfilled + units_provided
  if er.units_needed ≤ uf then
    { er with
      units_fulfilled := uf
      status := "fulfilled"
      fulfilled_at := some now
      fulfilled_by_id := some responder_id }
  else
    { er with units_fulfilled := uf, status := "partially_fulfilled" }

/-- Embeds `respond_to_request` (`app.py` lines 240-281).  `cu` is the logged-in
responder's id; `now` the current timestamp in minutes.  Returns `none` for
the 404 on an unknown request; a non-open request is rejected before any
mutation (the flash-and-redirect at lines 245-247). -/
def respond_to_request (s : AppState) (cu : Nat) (request_id : Nat) (action : String)
    (units_offered : Int) (now : Int) : Option AppState :=
  match s.requests.find? (fun r => r.id == request_id) with
  | none => none
  | some er =>
    if !(er.status == "open") then some s
    else
      let existing := s.responses.find?
        (fun p => p.request_id == request_id && p.responder_id == cu)
      let response : RequestResponse :=
        match existing with
        | some resp => resp
        | none =>
          { request_id := request_id, responder_id := cu, status := "notified",
            units_offered := 1, units_provided := 0, notified_at := some now,
            responded_at := none, completed_at := none, requester_rating := none }
      let response := { response with responded_at := some now }
      let response_time : ℚ :=
        match response.notified_at with
        | some n => ((now - n : Int) : ℚ)
        | none => 0
      let put := fun (resp : RequestResponse) =>
        match existing with
        | some _ => update_response s.responses request_id cu resp
        | none => s.responses ++ [resp]
      if action == "accept" then
        let response :=
          { response with status := "accepted", units_offered := units_offered }
        some { s with
               responses := put response
               requests := update_request s.requests request_id { er with status := "matching" } }
      else if action == "decline" then
        let response := { response with status := "declined" }
        some { s with
               responses := put response
               users := update_user s.users cu (fun u => u.update_iri false response_time) }
      else
        some { s with responses := put response }

/-- Embeds `complete_request` (`app.py` lines 284-344).  `cu` is the logged-in
requester organization's id; `now` is the current timestamp in minutes and
`today` the current date as a day number.  Returns `none` for the 404 on an
unknown request and for the crash on a missing responder row; an
unauthorized caller or a missing response row leaves the state unchanged. -/
def complete_request (s : AppState) (cu : Nat) (request_id : Nat) (responder_id : Nat)
    (units_provided : Int) (rating : Int) (now : Int) (today : Int) : Option AppState :=
  match s.requests.find? (fun r => r.id == request_id) with
  | none => none
  | some er =>
    if !(er.requester_id == cu) then some s
    else
      match s.responses.find?
        (fun p => p.request_id == request_id && p.responder_id == responder_id) with
      | none => some s
      | some response =>
        match s.users.find? (fun u => u.id == responder_id) with
        | none => none
        | some _responder =>
          let response :=
            { response with
              status := "completed"
              completed_at := some now
              units_provided := units_provided
              requester_rating := some rating }
          let response_time : ℚ :=
            match response.notified_at, response.responded_at with
            | some n, some rd => ((rd - n : Int) : ℚ)
            | _, _ => 30
          let users := update_user s.users responder_id (fun u =>
            let u := u.update_iri true response_time
            if er.resource_type == "blood" && u.role == Role.donor then
              { u with last_donation_date := some today }
            else u)
          let ecc_earned := calculate_ecc er response
          let users := update_user users cu (fun u =>
            { u with ecc_credits := u.ecc_credits + ecc_earned })
          let log : ContributionLog :=
            { user_id := cu, request_id := request_id, contribution_type := "fulfillment",
              ecc_earned := ecc_earned,
              description := "Fulfilled " ++ er.resource_type ++ " request" }
          let er := apply_completion er units_provided responder_id now
          some { users := users
                 requests := update_request s.requests request_id er
                 responses := update_response s.responses request_id responder_id response
                 logs := s.logs ++ [log] }

/-- Embeds the `new_request` POST handler (`app.py` lines 164-211), for an
organization caller `cu`.  Returns the new state and whether a request was
created (`false` on the duplicate-open-request conflict).  The matching and
notification steps at lines 205-206 are included: matched contributors get
`notified` response rows, and the request row is stored with whatever
`auto_expanded` flag matching left on it. -/
def new_request (s : AppState) (cu : User) (resource_type : String)
    (blood_group : Option String) (units_needed : Int) (urgency : String)
    (now : Int) (today : Int) (new_id : Nat) : AppState × Bool :=
  let existing := s.requests.find? (fun r =>
    r.requester_id == cu.id && r.resource_type == resource_type &&
      r.blood_group == blood_group && r.status == "open")
  match existing with
  | some _ => (s, false)
  | none =>
    let er : EmergencyRequest :=
      { id := new_id
        requester_id := cu.id
        resource_type := resource_type
        blood_group := if resource_type == "blood" || resource_type == "plasma"
                       then blood_group else none
        units_needed := units_needed
        urgency := urgency
        city := cu.city
        district := cu.district
        status := "open"
        units_fulfilled := 0
        auto_expanded := false
        fulfilled_by_id := none
        fulfilled_at := none
        expires_at := some (now + 60 * (if urgency == "normal" then 24 else 12)) }
    let matched := find_matching_contributors today s.users er
    let notifications := matched.1.map (fun u =>
      { request_id := new_id, responder_id := u.id, status := "notified",
        units_offered := 1, units_provided := 0, notified_at := some now,
        responded_at := none, completed_at := none,
        requester_rating := none : RequestResponse })
    ({ s with
       requests := s.requests ++ [matched.2]
       responses := s.responses ++ notifications }, true)

/-- A sequence of `update_iri` calls: fulfilled flag and response time per call. -/
def run_iri_updates (u : User) (calls : List (Bool × ℚ)) : User :=
  calls.foldl (fun v c => v.update_iri c.1 c.2) u

/-- The ranking key exactly as the specification words it: the eligibility
flag is 1 unless the contributor is a donor currently failing the 56-day
donation-cooldown rule; the verification flag; and the reliability score is
the individual reliability index for non-organizational contributors, or the
credit balance capped at 100 for organizations. -/
def claim_rank_key (today : Int) (u : User) : Nat × Nat × ℚ :=
  (if u.role = Role.donor ∧ u.can_donate_blood today = false then 0 else 1,
   if u.is_verified then 1 else 0,
   if u.is_organization then min 100 (u.ecc_credits : ℚ) else u.iri_score)

lemma tuple_le_total (a b : Nat × Nat × ℚ) : tuple_le a b ∨ tuple_le b a := by
  unfold tuple_le
  rcases lt_trichotomy a.1 b.1 with h | h | h
  · exact Or.inl (Or.inl h)
  · rcases lt_trichotomy a.2.1 b.2.1 with h2 | h2 | h2
    · exact Or.inl (Or.inr ⟨h, Or.inl h2⟩)
    · rcases le_total a.2.2 b.2.2 with h3 | h3
      · exact Or.inl (Or.inr ⟨h, Or.inr ⟨h2, h3⟩⟩)
      · exact Or.inr (Or.inr ⟨h.symm, Or.inr ⟨h2.symm, h3⟩⟩)
    · exact Or.inr (Or.inr ⟨h.symm, Or.inl h2⟩)
  · exact Or.inr (Or.inl h)

lemma tuple_le_trans (a b c : Nat × Nat × ℚ) :
    tuple_le a b → tuple_le b c → tuple_le a c := by
  unfold tuple_le
  rintro (h | ⟨h, hrest⟩) (g | ⟨g, grest⟩)
  · exact Or.inl (h.trans g)
  · exact Or.inl (lt_of_lt_of_eq h g)
  · exact Or.inl (lt_of_eq_of_lt h g)
  · refine Or.inr ⟨h.trans g, ?_⟩
    rcases hrest with h2 | ⟨h2, h3⟩ <;> rcases grest with g2 | ⟨g2, g3⟩
    · exact Or.inl (h2.trans g2)
    · exact Or.inl (lt_of_lt_of_eq h2 g2)
    · exact Or.inl (lt_of_eq_of_lt h2 g2)
    · exact Or.inr ⟨h2.trans g2, h3.trans g3⟩

lemma sort_key_eq_claim (today : Int) (u : User) :
    sort_key today u = claim_rank_key today u := by
  unfold sort_key claim_rank_key
  by_cases hr : u.role = Role.donor <;>
    cases hc : u.can_donate_blood today <;>
      cases ho : u.is_organization <;>
        simp [hr, hc, ho]

/-- C9: the static blood-compatibility table is self-compatible on every
group, `O-` appears as a donor for every group (universal donor), and
`AB+` is in every group's compatibility set (universal recipient). -/
theorem blood_compat_table_props :
    ∀ p ∈ BLOOD_COMPATIBILITY,
      p.1 ∈ compat_get (some p.1) ∧
        p.1 ∈ compat_get (some "O-") ∧
        "AB+" ∈ compat_get (some p.1) := by
  decide

theorem blood_compat_table_props_witness :
    ("A+", ["A+", "AB+"]) ∈ BLOOD_COMPATIBILITY ∧
      ("A+" ∈ compat_get (some "A+") ∧
        "A+" ∈ compat_get (some "O-") ∧
        "AB+" ∈ compat_get (some "A+")) :=
  ⟨by decide, blood_compat_table_props ("A+", ["A+", "AB+"]) (by decide)⟩

/-- C10: for a blood request whose blood group is unset, the eligibility
check skips the compatibility lookup: any available donor satisfying the
cooldown is eligible, whatever their own blood group (including none). -/
theorem eligibility_skips_compat_when_group_unset (today : Int) (u : User)
    (er : EmergencyRequest) (hb : er.resource_type = "blood")
    (hg : er.blood_group = none) :
    is_user_eligible_for_request today u er =
      (u.is_available && (u.role == Role.donor) && u.can_donate_blood today) := by
  cases h1 : u.is_available <;>
    cases h2 : u.role == Role.donor <;>
      cases h3 : u.can_donate_blood today <;>
        simp [is_user_eligible_for_request, hb, hg, h1, h2, h3]

/-- A donor with no recorded blood group, used to instantiate C10. -/
def no_group_donor : User :=
  { id := 5, role := Role.donor, blood_group := none, last_donation_date := none,
    is_available := true, is_verified := true, iri_score := 50, ecc_credits := 0,
    total_requests_received := 0, total_requests_fulfilled := 0,
    total_requests_declined := 0, response_time_avg := 0,
    city := "Mumbai", district := "Mumbai Suburban" }

/-- A blood request without a blood group, used to instantiate C10. -/
def no_group_blood_req : EmergencyRequest :=
  { id := 30, requester_id := 1, resource_type := "blood", blood_group := none,
    units_needed := 1, urgency := "normal", city := "Mumbai",
    district := "Mumbai Suburban", status := "open", units_fulfilled := 0,
    auto_expanded := false, fulfilled_by_id := none, fulfilled_at := none,
    expires_at := none }

theorem eligibility_skips_compat_witness :
    is_user_eligible_for_request 100 no_group_donor no_group_blood_req =
        (no_group_donor.is_available && (no_group_donor.role == Role.donor) &&
          no_group_donor.can_donate_blood 100) ∧
      is_user_eligible_for_request 100 no_group_donor no_group_blood_req = true :=
  ⟨eligibility_skips_compat_when_group_unset 100 no_group_donor no_group_blood_req
      rfl rfl,
   by decide⟩

/-- C3: `calculate_ecc` equals base 10 times the urgency multiplier
(critical 3, urgent 2, normal 1) plus a rare-group bonus of 5 plus
`rating - 3` with the rating defaulting to 3 when unset; and, holding
rating and rarity fixed, the result is monotonically non-decreasing in
urgency severity. -/
theorem calculate_ecc_formula_and_monotone :
    (∀ (er : EmergencyRequest) (resp : RequestResponse),
        (er.urgency = "critical" ∨ er.urgency = "urgent" ∨ er.urgency = "normal") →
        (resp.requester_rating = none ∨
          ∃ r, resp.requester_rating = some r ∧ 1 ≤ r ∧ r ≤ 5) →
        calculate_ecc er resp =
          10 * (if er.urgency = "critical" then 3
                else if er.urgency = "urgent" then 2 else 1)
            + (if er.blood_group ∈ [some "AB-", some "B-", some "A-", some "O-"]
               then 5 else 0)
            + (resp.requester_rating.getD 3 - 3)) ∧
    (∀ (er : EmergencyRequest) (resp : RequestResponse),
        calculate_ecc { er with urgency := "urgent" } resp
            ≤ calculate_ecc { er with urgency := "critical" } resp
          ∧ calculate_ecc { er with urgency := "normal" } resp
            ≤ calculate_ecc { er with urgency := "urgent" } resp) := by
  have hrare : ∀ g : Option String,
      (if is_rare g then (5 : Int) else 0) =
        (if (g = some "AB-" ∨ g = some "B-" ∨ g = some "A-" ∨ g = some "O-")
         then (5 : Int) else 0) := by
    intro g
    cases g <;> simp [is_rare, RARE_BLOOD_GROUPS]
  constructor
  · intro er resp hu hrat
    rcases hrat with hnone | ⟨r, hsome, hr1, hr5⟩
    · rcases hu with h | h | h <;>
        simp [calculate_ecc, h, hnone, hrare]
    · have hr0 : ¬ r = 0 := by omega
      rcases hu with h | h | h <;>
        simp [calculate_ecc, h, hsome, hr0, hrare]
  · intro er resp
    have hmk : ∀ m : Int, ∀ u : String,
        (((([("critical", (3 : Int)), ("urgent", 2), ("normal", 1)].find?
            (fun p => p.1 == u)).map (fun p => p.2)).getD 1) = m) →
        calculate_ecc { er with urgency := u } resp =
          10 * m + (if is_rare er.blood_group then 5 else 0) +
            ((match resp.requester_rating with
              | none => 3
              | some r => if r == 0 then 3 else r) - 3) := by
      intro m u hm
      rw [calculate_ecc, ← hm]
    rw [hmk 3 "critical" rfl, hmk 2 "urgent" rfl, hmk 1 "normal" rfl]
    constructor <;>
      exact add_le_add_right (add_le_add_right (by norm_num) _) _

def ecc_req : EmergencyRequest :=
  { id := 40, requester_id := 1, resource_type := "blood", blood_group := some "O-",
    units_needed := 1, urgency := "critical", city := "Mumbai",
    district := "Mumbai Suburban", status := "open", units_fulfilled := 0,
    auto_expanded := false, fulfilled_by_id := none, fulfilled_at := none,
    expires_at := none }

def ecc_resp : RequestResponse :=
  { request_id := 40, responder_id := 2, status := "completed", units_offered := 1,
    units_provided := 1, notified_at := some 0, responded_at := some 10,
    completed_at := some 60, requester_rating := some 5 }

/-- A user whose stored reliability index (200) is outside the documented
0-100 range, exhibiting that `update_iri` does not re-clamp such a start. -/
def out_of_range_user : User :=
  { id := 7, role := Role.donor, blood_group := some "A+", last_donation_date := none,
    is_available := true, is_verified := true, iri_score := 200, ecc_credits := 0,
    total_requests_received := 0, total_requests_fulfilled := 0,
    total_requests_declined := 0, response_time_avg := 0,
    city := "Mumbai", district := "Mumbai Suburban" }

/-- C2 counterexample: starting from index 200, a single decline call leaves
the index at 197, outside [0,100] — the claim fails for arbitrary starting
magnitude. -/
theorem update_iri_unclamped_from_large_start :
    (run_iri_updates out_of_range_user [(false, 0)]).iri_score = 197 ∧
      ¬ (run_iri_updates out_of_range_user [(false, 0)]).iri_score ≤ 100 := by
  have h : (run_iri_updates out_of_range_user [(false, 0)]).iri_score =
      max 0 (out_of_range_user.iri_score - 3) := by
    simp [run_iri_updates, User.update_iri]
  have h2 : out_of_range_user.iri_score = 200 := rfl
  rw [h, h2]
  norm_num

lemma update_iri_step_range (u : User) (h0 : 0 ≤ u.iri_score)
    (h1 : u.iri_score ≤ 100) (f : Bool) (t : ℚ) :
    0 ≤ (u.update_iri f t).iri_score ∧ (u.update_iri f t).iri_score ≤ 100 := by
  cases f <;> by_cases ht : (0 : ℚ) < t <;>
    simp only [User.update_iri, if_pos, if_neg, Bool.false_eq_true, if_false, if_true,
      ht, ite_true, ite_false, not_lt] <;>
    constructor
  · exact le_max_left 0 _
  · exact max_le (by norm_num) (by linarith)
  · exact le_max_left 0 _
  · exact max_le (by norm_num) (by linarith)
  · exact le_min (by norm_num)
      (add_nonneg (add_nonneg h0 (le_min (by norm_num) (by linarith))) (le_max_left 0 _))
  · exact min_le_left 100 _
  · exact le_min (by norm_num)
      (add_nonneg (add_nonneg h0 (le_min (by norm_num) (by linarith))) (le_max_left 0 _))
  · exact min_le_left 100 _

/-- C2 amended: provided the reliability index starts inside [0,100] (as
every stored user's does — the field defaults to 50 and is only written by
`update_iri`), it stays inside [0,100] after every call of any sequence of
`update_iri` calls, whatever the fulfilled flags and response times. -/
theorem update_iri_range_preserved (u : User) (h0 : 0 ≤ u.iri_score)
    (h1 : u.iri_score ≤ 100) (calls : List (Bool × ℚ)) :
    0 ≤ (run_iri_updates u calls).iri_score ∧
      (run_iri_updates u calls).iri_score ≤ 100 := by
  induction calls generalizing u with
  | nil => exact ⟨h0, h1⟩
  | cons c cs ih =>
    have h := update_iri_step_range u h0 h1 c.1 c.2
    simpa [run_iri_updates, List.foldl] using
      ih (u.update_iri c.1 c.2) h.1 h.2

/-- A user with the default in-range reliability index 50. -/
def in_range_user : User :=
  { out_of_range_user with id := 8, iri_score := 50 }

theorem update_iri_range_preserved_witness :
    0 ≤ (run_iri_updates in_range_user [(true, 10), (false, 5), (false, 0)]).iri_score ∧
      (run_iri_updates in_range_user [(true, 10), (false, 5), (false, 0)]).iri_score ≤ 100 :=
  update_iri_range_preserved in_range_user (by decide) (by decide)
    [(true, 10), (false, 5), (false, 0)]

theorem calculate_ecc_formula_witness :
    calculate_ecc ecc_req ecc_resp =
      10 * (if ecc_req.urgency = "critical" then 3
            else if ecc_req.urgency = "urgent" then 2 else 1)
        + (if ecc_req.blood_group ∈ [some "AB-", some "B-", some "A-", some "O-"]
           then 5 else 0)
        + (ecc_resp.requester_rating.getD 3 - 3) :=
  calculate_ecc_formula_and_monotone.1 ecc_req ecc_resp (by decide)
    (Or.inr ⟨5, by decide, by decide, by decide⟩)

/-- A requesting hospital organization. -/
def org_user : User :=
  { id := 1, role := Role.hospital, blood_group := none, last_donation_date := none,
    is_available := true, is_verified := true, iri_score := 50, ecc_credits := 50,
    total_requests_received := 0, total_requests_fulfilled := 0,
    total_requests_declined := 0, response_time_avg := 0,
    city := "Mumbai", district := "Mumbai Suburban" }

/-- A compatible available donor with the given id. -/
def donor_user (i : Nat) : User :=
  { id := i, role := Role.donor, blood_group := some "O-", last_donation_date := none,
    is_available := true, is_verified := true, iri_score := 50, ecc_credits := 0,
    total_requests_received := 0, total_requests_fulfilled := 0,
    total_requests_declined := 0, response_time_avg := 0,
    city := "Mumbai", district := "Mumbai Suburban" }

/-- An already-cancelled blood request needing 2 units. -/
def cancelled_req : EmergencyRequest :=
  { id := 10, requester_id := 1, resource_type := "blood", blood_group := some "A+",
    units_needed := 2, urgency := "normal", city := "Mumbai",
    district := "Mumbai Suburban", status := "cancelled", units_fulfilled := 0,
    auto_expanded := false, fulfilled_by_id := none, fulfilled_at := none,
    expires_at := none }

/-- The same request while still open. -/
def open_req : EmergencyRequest :=
  { cancelled_req with status := "open" }

/-- A fresh `notified` response row for the given request/responder. -/
def notified_resp (rid uid : Nat) : RequestResponse :=
  { request_id := rid, responder_id := uid, status := "notified", units_offered := 1,
    units_provided := 0, notified_at := none, responded_at := none,
    completed_at := none, requester_rating := none }

/-- State with a cancelled request that already has a notified response. -/
def cancelled_state : AppState :=
  { users := [org_user, donor_user 2], requests := [cancelled_req],
    responses := [notified_resp 10 2], logs := [] }

/-- C4 (code bug): `complete_request` never checks the request status nor
caps the units, so completing a responder on an already-cancelled request
needing 2 units with 3 units provided moves the request to `fulfilled`
(resurrecting a terminal status) with `units_fulfilled = 3 > units_needed = 2`. -/
theorem complete_request_breaks_invariants :
    (cancelled_state.requests.map fun r => (r.status, r.units_needed, r.units_fulfilled))
        = [("cancelled", 2, 0)] ∧
      ((complete_request cancelled_state 1 10 2 3 5 1000 100).map
          fun s => s.requests.map fun r => (r.status, r.units_needed, r.units_fulfilled))
        = some [("fulfilled", 2, 3)] := by
  constructor
  · decide
  · decide

/-- State with one organization and no requests yet. -/
def fresh_state : AppState :=
  { users := [org_user], requests := [], responses := [], logs := [] }

/-- State with an open request and a notified response, used to show the
missing rating validation on completion. -/
def open_state : AppState :=
  { users := [org_user, donor_user 2], requests := [open_req],
    responses := [notified_resp 10 2], logs := [] }

/-- C6 (code bug): request creation performs no validation — a blood request
with no blood group and a non-positive unit count is created anyway — and
completion accepts an out-of-range rating (0) without rejection. -/
theorem creation_and_completion_skip_validation :
    ((new_request fresh_state org_user "blood" none 0 "normal" 0 100 99).2 = true ∧
      ((new_request fresh_state org_user "blood" none 0 "normal" 0 100 99).1.requests.map
          fun r => (r.resource_type, r.blood_group, r.units_needed, r.status))
        = [("blood", none, 0, "open")]) ∧
      ((complete_request open_state 1 10 2 1 0 1000 100).map
          fun s => s.responses.map fun p => (p.status, p.requester_rating))
        = some [("completed", some 0)] := by
  refine ⟨⟨?_, ?_⟩, ?_⟩
  · decide
  · decide
  · decide

/-- State whose only request is in status `matching` (not open) and which
has no response rows. -/
def matching_state : AppState :=
  { users := [org_user, donor_user 2],
    requests := [{ open_req with status := "matching" }],
    responses := [], logs := [] }

/-- C7: responding to a non-open request is rejected before any mutation
(the whole state is returned unchanged), and completing a responder for
whom no response row exists is a no-op. -/
theorem nonopen_reject_and_missing_response_noop :
    (∀ (s : AppState) (cu rid : Nat) (action : String) (uo : Int) (now : Int)
        (er : EmergencyRequest),
        s.requests.find? (fun r => r.id == rid) = some er →
        er.status ≠ "open" →
        respond_to_request s cu rid action uo now = some s) ∧
    (∀ (s : AppState) (cu rid resp_id : Nat) (up rating now today : Int)
        (er : EmergencyRequest),
        s.requests.find? (fun r => r.id == rid) = some er →
        s.responses.find?
            (fun p => p.request_id == rid && p.responder_id == resp_id) = none →
        complete_request s cu rid resp_id up rating now today = some s) := by
  constructor
  · intro s cu rid action uo now er hfind hst
    simp [respond_to_request, hfind, hst]
  · intro s cu rid resp_id up rating now today er hfind hresp
    simp [complete_request, hfind, hresp]

theorem nonopen_reject_and_missing_response_noop_witness :
    respond_to_request matching_state 2 10 "accept" 1 0 = some matching_state ∧
      complete_request matching_state 1 10 2 1 5 0 0 = some matching_state :=
  ⟨nonopen_reject_and_missing_response_noop.1 matching_state 2 10 "accept" 1 0 _
      rfl (by decide),
   nonopen_reject_and_missing_response_noop.2 matching_state 1 10 2 1 5 0 0 _
      rfl rfl⟩

/-- State with an open request needing 2 units and two notified donors. -/
def two_donor_state : AppState :=
  { users := [org_user, donor_user 2, donor_user 3], requests := [open_req],
    responses := [notified_resp 10 2, notified_resp 10 3], logs := [] }

/-- C8: every completion adds the provided units to `units_fulfilled` and
moves the request to `fulfilled` (stamping `fulfilled_at` and the fulfilling
responder) exactly when the total reaches `units_needed`, else to
`partially_fulfilled`; in particular two successive 1-unit completions on a
2-unit request give `partially_fulfilled` then `fulfilled`. -/
theorem completion_updates_units_and_status :
    (∀ (er : EmergencyRequest) (up : Int) (rid : Nat) (now : Int),
        (apply_completion er up rid now).units_fulfilled = er.units_fulfilled + up ∧
          (if er.units_needed ≤ er.units_fulfilled + up then
            (apply_completion er up rid now).status = "fulfilled" ∧
              (apply_completion er up rid now).fulfilled_at = some now ∧
              (apply_completion er up rid now).fulfilled_by_id = some rid
          else
            (apply_completion er up rid now).status = "partially_fulfilled" ∧
              (apply_completion er up rid now).fulfilled_at = er.fulfilled_at)) ∧
      (((complete_request two_donor_state 1 10 2 1 5 1000 100).map
          fun s => s.requests.map fun r => (r.status, r.units_fulfilled, r.fulfilled_at))
        = some [("partially_fulfilled", 1, none)] ∧
        (((complete_request two_donor_state 1 10 2 1 5 1000 100).bind
            fun s1 => complete_request s1 1 10 3 1 5 1200 100).map
          fun s => s.requests.map fun r => (r.status, r.units_fulfilled, r.fulfilled_at))
        = some [("fulfilled", 2, some 1200)]) := by
  refine ⟨?_, ?_, ?_⟩
  · intro er up rid now
    by_cases h : er.units_needed ≤ er.units_fulfilled + up <;>
      simp [apply_completion, h]
  · decide
  · decide

/-- A critical request with no local candidates, triggering expansion. -/
def critical_req : EmergencyRequest :=
  { id := 20, requester_id := 1, resource_type := "blood", blood_group := none,
    units_needed := 1, urgency := "critical", city := "Mumbai",
    district := "Mumbai Suburban", status := "open", units_fulfilled := 0,
    auto_expanded := false, fulfilled_by_id := none, fulfilled_at := none,
    expires_at := none }

/-- C5 counterexample: matching is not side-effect-free — on a critical
request it flips the request's `auto_expanded` flag, so the request record
is changed by the call. -/
theorem match_mutates_request :
    (find_matching_contributors 0 [] critical_req).2 ≠ critical_req := by
  decide

/-- C5 amended: matching leaves every contributor record unchanged and
changes the request at most by setting its `auto_expanded` flag; it reads
nothing it writes, so matching twice on the request it returned yields the
same ordered list. -/
theorem match_effect_only_auto_expanded (today : Int) (pool : List User)
    (er : EmergencyRequest) :
    ((find_matching_contributors today pool er).2 = er ∨
        (find_matching_contributors today pool er).2 = { er with auto_expanded := true }) ∧
      (find_matching_contributors today pool
          ((find_matching_contributors today pool er).2)).1 =
        (find_matching_contributors today pool er).1 := by
  have h2 : (find_matching_contributors today pool er).2 =
      (if expansion_triggered pool er then { er with auto_expanded := true } else er) := rfl
  constructor
  · rw [h2]
    by_cases h : expansion_triggered pool er = true
    · right; rw [if_pos h]
    · left; rw [if_neg h]
  · rw [h2]
    by_cases h : expansion_triggered pool er = true
    · rw [if_pos h]
      rfl
    · rw [if_neg h]

/-- C1: the matcher ranks the combined candidate list descending by the
tuple (eligibility flag, verification flag, reliability score) — the
eligibility flag being 1 unless the contributor is a donor currently failing
the 56-day cooldown, and the reliability score being the individual index
for non-organizational contributors or the credit balance capped at 100 for
organizations — and truncates to the top 10 contributors when urgency is
"critical" and the top 5 otherwise. -/
theorem matcher_ranks_and_truncates (today : Int) (pool : List User)
    (er : EmergencyRequest) :
    ∃ ranked : List User,
      ranked.Perm (combined_candidates pool er) ∧
        List.Sorted
          (fun a b => tuple_le (claim_rank_key today b) (claim_rank_key today a)) ranked ∧
        (find_matching_contributors today pool er).1 =
          ranked.take (if er.urgency = "critical" then 10 else 5) := by
  haveI hT : IsTotal User
      (fun a b : User => tuple_le (sort_key today b) (sort_key today a)) :=
    ⟨fun a b => (tuple_le_total (sort_key today b) (sort_key today a))⟩
  haveI hR : IsTrans User
      (fun a b : User => tuple_le (sort_key today b) (sort_key today a)) :=
    ⟨fun a b c hab hbc =>
      tuple_le_trans (sort_key today c) (sort_key today b) (sort_key today a) hbc hab⟩
  refine ⟨List.insertionSort
      (fun a b : User => tuple_le (sort_key today b) (sort_key today a))
      (combined_candidates pool er),
    List.perm_insertionSort _ _, ?_, ?_⟩
  · have hs := List.sorted_insertionSort
      (fun a b : User => tuple_le (sort_key today b) (sort_key today a))
      (combined_candidates pool er)
    refine hs.imp ?_
    intro a b hab
    rw [sort_key_eq_claim, sort_key_eq_claim] at hab
    exact hab
  · by_cases h : er.urgency = "critical" <;>
      simp [find_matching_contributors, h]
